import Mathlib

/-!
Shallow embedding of the staleness-classification and ownership-resolution
pipeline of the Automated-AWS-Cost-Optimization-System repository
(src/functions/ec2/ec2.py, src/functions/lb/lb.py, src/functions/nat_gw/nat_gw.py).

External collaborator responses (describe_tags, CloudTrail lookup_events,
get_metric_data, DynamoDB put_item, SES/SNS, EventBridge) are passed in as
explicit values or outcome oracles; the decision logic is translated from the
source.  CloudWatch metric sample values (Python floats) are modelled as
rationals; Python exceptions are modelled with Except.
-/

/-- Kinds of Python exceptions the embedded code can raise or receive from
collaborators.  `typeError` models a built-in TypeError; `clientError` models
a botocore ClientError returned by an AWS call. -/
inductive PyError where
  | typeError
  | clientError
deriving DecidableEq, Repr

/-- One tag of a resource: the boto3 dict with keys Key and Value. -/
structure Tag where
  key : String
  value : String
deriving DecidableEq, Repr

/-- Python truthiness of the `creator` variable (None or a string): None and
the empty string are falsy. -/
def truthy : Option String → Bool
  | none => false
  | some s => !s.isEmpty

/-- ec2.py lines 249-252 / nat_gw.py lines 169-172: scan the tag list for the
first tag whose Key is creator and return its Value (the loop breaks on the
first match). -/
def findCreatorTag : List Tag → Option String
  | [] => none
  | t :: ts => if t.key = "creator" then some t.value else findCreatorTag ts

/-- lb.py lines 181-184: `for x in tag_dicts: if any(creator == v for v in
x.values()): creator = x['Value']`.  The values of the tag dict are its Key
and its Value, so a tag matches when its key OR its value equals the string
creator; there is no break, so the LAST matching tag wins. -/
def lbFindCreator (tags : List Tag) : Option String :=
  tags.foldl (fun acc t =>
    if t.key = "creator" ∨ t.value = "creator" then some t.value else acc) none

/-- One CloudTrail event as consumed by get_creator_from_cloudtrail_ec2:
EventName, userIdentity.get('type') from the parsed CloudTrailEvent JSON, and
the top-level Username. -/
structure CTEvent where
  eventName : String
  identityType : Option String
  username : String
deriving DecidableEq, Repr

/-- The event-scanning loop of get_creator_from_cloudtrail_ec2 (ec2.py lines
143-150): return the Username of the first event whose EventName equals the
audit event name and whose userIdentity type is AssumedRole; an event with a
matching name but a different identity type is passed over and the loop
continues. -/
def findQualifying (auditName : String) : List CTEvent → Option String
  | [] => none
  | e :: rest =>
    if e.eventName = auditName ∧ e.identityType = some "AssumedRole" then
      some e.username
    else findQualifying auditName rest

/-- get_creator_from_cloudtrail_ec2 (ec2.py lines 126-150; the lb.py and
nat_gw.py copies differ only in the audit event name, made a parameter here).
The lookup_events call has no try/except around it, so a failed lookup is the
error case of the input and propagates; a successful lookup is scanned for a
qualifying event, returning None when there is none. -/
def get_creator_from_cloudtrail_ec2 (auditName : String)
    (lookup : Except PyError (List CTEvent)) : Except PyError (Option String) :=
  match lookup with
  | .error e => .error e
  | .ok evs => .ok (findQualifying auditName evs)

/-- Ownership resolution of ec2.py lines 249-261 / nat_gw.py lines 169-180:
take the creator tag value if it is truthy (present and non-empty), otherwise
fall back to the CloudTrail lookup.  The Bool records whether the CloudTrail
fallback was consulted. -/
def tagOrTrailOwner (auditName : String) (tags : List Tag)
    (lookup : Except PyError (List CTEvent)) :
    Except PyError (Option String × Bool) :=
  let c := findCreatorTag tags
  if truthy c then .ok (c, false)
  else
    match get_creator_from_cloudtrail_ec2 auditName lookup with
    | .error e => .error e
    | .ok r => .ok (r, true)

/-- Ownership resolution of lb.py lines 179-192: same truthiness gate, but
with the lb tag scan and the CreateLoadBalancer audit event. -/
def lbResolveOwner (tags : List Tag)
    (lookup : Except PyError (List CTEvent)) :
    Except PyError (Option String × Bool) :=
  let c := lbFindCreator tags
  if truthy c then .ok (c, false)
  else
    match get_creator_from_cloudtrail_ec2 "CreateLoadBalancer" lookup with
    | .error e => .error e
    | .ok r => .ok (r, true)

/-- The ec2.describe_tags response (ec2.py line 243): a dict whose Tags key
holds the tag list (a ResponseMetadata entry is always present as well). -/
structure TagsResp where
  Tags : List Tag
deriving DecidableEq, Repr

/-- Iterating a Python dict iterates its keys; the describe_tags response
always carries at least the Tags and ResponseMetadata keys, each a str. -/
def TagsResp.dictKeys (_ : TagsResp) : List String := ["Tags", "ResponseMetadata"]

/-- ec2.py lines 267-268: `any(tag['Key'] == 'stale' and tag['Value'] ==
'false' for tag in ec2_tags)`.  The generator ranges over ec2_tags itself —
the response dict — not over ec2_tags['Tags'], so each loop variable is a str
key of the dict, and subscripting a str with the str 'Key' raises TypeError
on the first iteration.  (An empty dict would make any() return False, but
the response dict is never empty.) -/
def ec2StaleTagPresent (resp : TagsResp) : Except PyError Bool :=
  match resp.dictKeys with
  | [] => .ok false
  | _ :: _ => .error .typeError

/-- One cell of an info_candidates row: either a numeric value, a whole
sample list (lb stores request_count_list in the row), or a message string. -/
inductive Cell where
  | num (q : ℚ)
  | nums (l : List ℚ)
  | msg (s : String)
deriving DecidableEq, Repr

/-- The Values lists of the three MetricDataResults of the EC2 metrics query
(ec2.py lines 285-287), positionally: NetworkIn, NetworkOut, CPUUtilization. -/
structure Ec2Metrics where
  networkIn : List ℚ
  networkOut : List ℚ
  cpu : List ℚ
deriving DecidableEq, Repr

/-- Result of the EC2 metric-evaluation block: the three metric cells of the
info row, the status string, and whether a stale finding is appended to the
owner's email_candidates list. -/
structure Ec2Eval where
  niCell : Cell
  noCell : Cell
  cpuCell : Cell
  status : String
  staleFinding : Bool
deriving DecidableEq, Repr

/-- ec2.py lines 285-314: if any metric returned samples, take the first
sample of each metric (an individually empty metric defaults to 0) and mark
the instance stale when (NetworkIn < 5*1024*1024 and NetworkOut <
5*1024*1024) or CPUUtilization < 10; if no metric returned any sample, mark
it stale with No Values Returned cells.  The network cells of the info row
are divided by 1048576. -/
def ec2MetricsEval (m : Ec2Metrics) : Ec2Eval :=
  if !m.networkIn.isEmpty || !m.networkOut.isEmpty || !m.cpu.isEmpty then
    let ni := m.networkIn.headD 0
    let nOut := m.networkOut.headD 0
    let cpu := m.cpu.headD 0
    if (ni < 5 * 1024 * 1024 ∧ nOut < 5 * 1024 * 1024) ∨ cpu < 10 then
      ⟨.num (ni / 1048576), .num (nOut / 1048576), .num cpu, "stale", true⟩
    else
      ⟨.num (ni / 1048576), .num (nOut / 1048576), .num cpu, "Not stale", false⟩
  else
    ⟨.msg "No Values Returned", .msg "No Values Returned",
     .msg "No Values Returned", "stale", true⟩

/-- One entry of an email_candidates list for EC2 or NAT gateways: the tuple
(resource id, region, resource_type_major). -/
structure FindingRec where
  rid : String
  region : String
  rtype : String
deriving DecidableEq, Repr

/-- One info_candidates row of the EC2 handler: (instance_id, instance_age,
region, creator, NetworkIn cell, NetworkOut cell, CPU cell, status); the age
is kept in days. -/
structure Ec2Row where
  id : String
  ageDays : Int
  region : String
  creator : Option String
  niCol : Cell
  noCol : Cell
  cpuCol : Cell
  status : String
deriving DecidableEq, Repr

/-- What one EC2 per-instance iteration contributes to the scan state: its
info row, its optional stale finding, and whether get_metrics was called. -/
structure Ec2StepResult where
  row : Ec2Row
  finding : Option FindingRec
  metricsQueried : Bool
deriving DecidableEq, Repr

/-- The per-instance body of ec2.py main_handler (lines 236-320): resolve the
owner (tag, else CloudTrail — an uncaught lookup failure propagates), then
evaluate the exemption-tag check of lines 267-268 (which, as written, raises
TypeError), then either skip as exempt, evaluate metrics when the age is at
least the time frame, or record the too-young row. -/
def ec2InstanceStep (id region major : String) (ageDays : Int) (resp : TagsResp)
    (lookup : Except PyError (List CTEvent)) (m : Ec2Metrics) (tf : Int) :
    Except PyError Ec2StepResult :=
  match tagOrTrailOwner "RunInstances" resp.Tags lookup with
  | .error e => .error e
  | .ok (creator, _) =>
    match ec2StaleTagPresent resp with
    | .error e => .error e
    | .ok exempt =>
      if exempt then
        .ok ⟨⟨id, ageDays, region, creator,
              .msg "Resource tagged as not stale by owner",
              .msg "Resource tagged as not stale by owner",
              .msg "Resource tagged as not stale by owner", "None"⟩, none, false⟩
      else if ageDays ≥ tf then
        let ev := ec2MetricsEval m
        .ok ⟨⟨id, ageDays, region, creator, ev.niCell, ev.noCell, ev.cpuCell, ev.status⟩,
             if ev.staleFinding then some ⟨id, region, major⟩ else none, true⟩
      else
        .ok ⟨⟨id, ageDays, region, creator,
              .msg ("Resource Age less than " ++ toString tf ++ " days"),
              .msg ("Resource Age less than " ++ toString tf ++ " days"),
              .msg ("Resource Age less than " ++ toString tf ++ " days"), "None"⟩,
             none, false⟩

/-- The Values list of MetricDataResults[0] of the NAT gateway metrics query
(nat_gw.py line 188): connection attempt counts. -/
structure NatMetrics where
  connectionAttempts : List ℚ
deriving DecidableEq, Repr

/-- One info_candidates row of the NAT gateway handler: (nat_gateway_id, age,
region, creator, connection-attempts cell, status). -/
structure NatRow where
  id : String
  ageDays : Int
  region : String
  creator : Option String
  attempts : Cell
  status : String
deriving DecidableEq, Repr

/-- What one NAT gateway iteration contributes: its info row, its optional
stale finding, and whether get_metrics was called. -/
structure NatStepResult where
  row : NatRow
  finding : Option FindingRec
  metricsQueried : Bool
deriving DecidableEq, Repr

/-- nat_gw.py lines 183-211, the branch for gateways at least TIME_FRAME = 7
days old: a first connection-attempt sample strictly above 7 is Not stale;
otherwise stale; an empty sample list is stale with a No Values Returned
cell. -/
def natEval (id region major : String) (ageDays : Int) (creator : Option String)
    (m : NatMetrics) : NatStepResult :=
  if !m.connectionAttempts.isEmpty then
    let ca := m.connectionAttempts.headD 0
    if ca > 7 then
      ⟨⟨id, ageDays, region, creator, .num ca, "Not stale"⟩, none, true⟩
    else
      ⟨⟨id, ageDays, region, creator, .num ca, "stale"⟩, some ⟨id, region, major⟩, true⟩
  else
    ⟨⟨id, ageDays, region, creator, .msg "No Values Returned", "stale"⟩,
     some ⟨id, region, major⟩, true⟩

/-- The per-gateway body of nat_gw.py main_handler (lines 154-215): resolve
the owner (tag, else CloudTrail — an uncaught lookup failure propagates),
then evaluate metrics when the age is at least 7 days, else record the
too-young row; there is no exemption-tag check in this handler. -/
def natInstanceStep (id region major : String) (ageDays : Int) (tags : List Tag)
    (lookup : Except PyError (List CTEvent)) (m : NatMetrics) :
    Except PyError NatStepResult :=
  match tagOrTrailOwner "CreateNatGateway" tags lookup with
  | .error e => .error e
  | .ok (creator, _) =>
    if ageDays ≥ 7 then
      .ok (natEval id region major ageDays creator m)
    else
      .ok ⟨⟨id, ageDays, region, creator,
            .msg "Resource Age less than 7 days", "None"⟩, none, false⟩

/-- One entry of an email_candidates list of the lb handler: the tuple
(lb_name, lb_resource_id, region, flavor, lb_type, resource_type_major),
where flavor is idle or misconfigured. -/
structure LbFinding where
  name : String
  rid : String
  region : String
  flavor : String
  lbType : String
  major : String
deriving DecidableEq, Repr

/-- The Values lists of the two MetricDataResults of the lb metrics query;
only index 1 (request count) is ever read by the handler. -/
structure LbMetrics where
  res0 : List ℚ
  requestCount : List ℚ
deriving DecidableEq, Repr

/-- Result of the lb evaluation branch: the request-count cell and status of
the info row, the optional finding, and whether get_metrics was called. -/
structure LbEvalOut where
  requestCell : Cell
  status : String
  finding : Option LbFinding
  metricsQueried : Bool
deriving DecidableEq, Repr

/-- lb.py lines 197-225, the branch for load balancers at least TIME_FRAME =
7 days old: with no listeners (target groups) the LB is misconfigured and no
metrics are queried; with listeners, a first request-count sample strictly
above 1000 is Not stale, otherwise stale; an empty sample list is stale.
The stale info row stores the whole request_count_list in its cell. -/
def lbEval (lbName lbResourceId lbType major region : String)
    (listeners : List String) (m : LbMetrics) : LbEvalOut :=
  if !listeners.isEmpty then
    if !m.requestCount.isEmpty then
      let rc := m.requestCount.headD 0
      if rc > 1000 then
        ⟨.nums m.requestCount, "Not stale", none, true⟩
      else
        ⟨.nums m.requestCount, "stale",
         some ⟨lbName, lbResourceId, region, "idle", lbType, major⟩, true⟩
    else
      ⟨.msg "No Values Returned", "stale",
       some ⟨lbName, lbResourceId, region, "idle", lbType, major⟩, true⟩
  else
    ⟨.msg "No Listeners Attached", "misconfigured",
     some ⟨lbName, lbResourceId, region, "misconfigured", lbType, major⟩, false⟩

/-- One externally visible call attempted by a reporting phase, in order:
an SNS publish, a DynamoDB put_item (with its outcome: the call site catches
ClientError, logs it and continues), an SES send_email, or the EventBridge
put_rule call of schedule_deletion_lambda (carrying the resource kind and
the table name of the findings, the context stored for the deletion job). -/
inductive Effect where
  | snsPublish (msg : String)
  | putItem (creator rid rtype region : String) (ok : Bool)
  | sendEmail (recipient : String)
  | scheduleCall (rtype tableName : String)
deriving DecidableEq, Repr

/-- schedule_deletion_lambda (ec2.py lines 69-119): the EventBridge/Lambda
calls are wrapped in a try/except over all exceptions; on success the
formatted scheduled time is returned, on any failure False (modelled none)
is returned. -/
def schedule_deletion_lambda (calls : Except PyError Unit) (ts : String) :
    Option String :=
  match calls with
  | .ok _ => some ts
  | .error _ => none

/-- ec2.py lines 394-395: the final broadcast message is the degraded text
when schedule_deletion_lambda returned a falsy value (False, or an empty
string), else the success text with the timestamp. -/
def ec2FinalBroadcast (sched : Option String) (major : String) : String :=
  match sched with
  | none => "Unable to schedule deletion lambda"
  | some ts =>
    if ts.isEmpty then "Unable to schedule deletion lambda"
    else "Deletion lambda for " ++ major ++ " scheduled at " ++ ts ++ " (UTC Time)"

/-- ec2.py lines 345-387, the body for one (creator, idle_resources) entry of
email_candidates: skipped when the creator is falsy (None or empty); else one
put_item per finding — its ClientError caught at the call site — followed by
one send_email, sent even when the finding list is empty. -/
def ec2OwnerBlock (putFails : FindingRec → Bool) :
    Option String × List FindingRec → List Effect
  | (creatorOpt, rs) =>
    match creatorOpt with
    | none => []
    | some c =>
      if c.isEmpty then []
      else rs.map (fun r => Effect.putItem c r.rid r.rtype r.region (!putFails r))
           ++ [Effect.sendEmail c]

/-- Steps 5-7 of ec2.py main_handler (lines 322-404): publish the rendered
summary, process every owner entry, then call schedule_deletion_lambda and
publish its outcome.  The summary body is the text folded from
info_candidates; the phase does not inspect it.  `sched` is the value
returned by schedule_deletion_lambda. -/
def ec2ReportPhase (summaryBody : String)
    (cands : List (Option String × List FindingRec))
    (putFails : FindingRec → Bool) (sched : Option String) (major : String) :
    List Effect :=
  [Effect.snsPublish summaryBody]
  ++ cands.flatMap (ec2OwnerBlock putFails)
  ++ [Effect.scheduleCall major "StaleResourcesTesting",
      Effect.snsPublish (ec2FinalBroadcast sched major)]

/-- lb.py lines 255-301, the body for one owner entry: entered only when the
creator is not None AND the finding list is non-empty; the stored ResourceID
is the third slash-separated component of the finding's resource id. -/
def lbOwnerBlock (putFails : LbFinding → Bool) :
    Option String × List LbFinding → List Effect
  | (creatorOpt, rs) =>
    match creatorOpt with
    | none => []
    | some c =>
      if rs.isEmpty then []
      else rs.map (fun r =>
             Effect.putItem c ((r.rid.splitOn "/").getD 2 "") r.major r.region (!putFails r))
           ++ [Effect.sendEmail c]

/-- Steps 6-7 of lb.py main_handler (lines 230-301): publish the summary and
process every owner entry.  This handler schedules nothing. -/
def lbReportPhase (summaryBody : String)
    (cands : List (Option String × List LbFinding))
    (putFails : LbFinding → Bool) : List Effect :=
  [Effect.snsPublish summaryBody] ++ cands.flatMap (lbOwnerBlock putFails)

/-- nat_gw.py lines 233-278, the body for one owner entry: skipped when the
creator is falsy; else one put_item per finding (ClientError caught at the
call site) followed by one send_email, sent even when the list is empty. -/
def natOwnerBlock (putFails : FindingRec → Bool) :
    Option String × List FindingRec → List Effect
  | (creatorOpt, rs) =>
    match creatorOpt with
    | none => []
    | some c =>
      if c.isEmpty then []
      else rs.map (fun r => Effect.putItem c r.rid r.rtype r.region (!putFails r))
           ++ [Effect.sendEmail c]

/-- The reporting tail of nat_gw.py main_handler (lines 217-278): publish the
summary and process every owner entry.  This handler schedules nothing. -/
def natReportPhase (summaryBody : String)
    (cands : List (Option String × List FindingRec))
    (putFails : FindingRec → Bool) : List Effect :=
  [Effect.snsPublish summaryBody] ++ cands.flatMap (natOwnerBlock putFails)

/-- Whether a trace contains an EventBridge scheduling call. -/
def hasSchedule (t : List Effect) : Bool :=
  t.any fun e =>
    match e with
    | .scheduleCall _ _ => true
    | _ => false

/-- The put_item calls of a trace, with the outcome flag erased: the records
whose storage was attempted. -/
def putRecords (t : List Effect) : List (String × String × String × String) :=
  t.filterMap fun e =>
    match e with
    | .putItem c rid ty rg _ => some (c, rid, ty, rg)
    | _ => none

theorem hasSchedule_append (a b : List Effect) :
    hasSchedule (a ++ b) = (hasSchedule a || hasSchedule b) := by
  simp [hasSchedule, List.any_append]

theorem putRecords_append (a b : List Effect) :
    putRecords (a ++ b) = putRecords a ++ putRecords b := by
  simp [putRecords, List.filterMap_append]

/-- C1: the spec requires an instance tagged exempt (stale=false) to be
classified Exempt with no metrics query, regardless of age.  ec2.py clearly
intends this (the comment Step 3: Skip instances explicitly marked as
non-stale, and the adjacent correctly written tag loop of line 249), but the
check of lines 267-268 iterates the describe_tags response dict instead of
its Tags list, so the per-instance step raises TypeError instead of
producing an Exempt record — and lb.py has no exemption check at all.  Here
the embedded step, at a 400-day-old instance tagged stale=false, raises. -/
theorem claim_C1_exempt_tag_check_raises :
    ec2InstanceStep "i-exempt" "ap-southeast-1" "EC2" 400 ⟨[⟨"stale", "false"⟩]⟩
      (.ok []) ⟨[], [], []⟩ 7 = .error .typeError := rfl

/-- C2 counterexample: the claim says an Activity Log query failure makes
ownership resolution return null (ok none).  It does not: the failure
propagates unchanged out of get_creator_from_cloudtrail_ec2, which has no
try/except. -/
theorem claim_C2_cex_lookup_error_propagates :
    get_creator_from_cloudtrail_ec2 "RunInstances" (.error .clientError)
      ≠ .ok none :=
  fun h => Except.noConfusion h

/-- C2 amended: a failed Activity Log lookup propagates as the exception
itself, out of get_creator_from_cloudtrail_ec2, out of the tag-or-trail
resolution and out of the per-resource step (aborting the scan, which does
not catch it); null is returned only when the lookup succeeds and no
qualifying event is found. -/
theorem claim_C2_amended_lookup_failure :
    (∀ (a : String) (e : PyError),
       get_creator_from_cloudtrail_ec2 a (.error e) = .error e)
  ∧ (∀ (a : String) (evs : List CTEvent), findQualifying a evs = none →
       get_creator_from_cloudtrail_ec2 a (.ok evs) = .ok none)
  ∧ (∀ (a : String) (tags : List Tag) (e : PyError),
       truthy (findCreatorTag tags) = false →
       tagOrTrailOwner a tags (.error e) = .error e)
  ∧ (∀ (id region major : String) (age : Int) (tags : List Tag) (e : PyError)
       (m : NatMetrics), truthy (findCreatorTag tags) = false →
       natInstanceStep id region major age tags (.error e) m = .error e) := by
  refine ⟨fun a e => rfl, fun a evs h => ?_, fun a tags e h => ?_,
          fun id region major age tags e m h => ?_⟩
  · simp [get_creator_from_cloudtrail_ec2, h]
  · simp [tagOrTrailOwner, h, get_creator_from_cloudtrail_ec2]
  · simp [natInstanceStep, tagOrTrailOwner, h, get_creator_from_cloudtrail_ec2]

/-- C2 witness: a NAT gateway with no creator tag whose CloudTrail lookup
fails: the per-resource step propagates the ClientError. -/
theorem claim_C2_amended_witness :
    natInstanceStep "nat-1" "r1" "NAT" 400 [] (.error .clientError) ⟨[]⟩
      = .error .clientError :=
  claim_C2_amended_lookup_failure.2.2.2 "nat-1" "r1" "NAT" 400 [] .clientError
    ⟨[]⟩ (by decide)

/-- C4 counterexample: the claim says that whenever the creator tag KEY is
present its value is returned immediately and no Activity Log call is made.
With the tag present but empty-valued, the value is falsy, so the code falls
through to CloudTrail: the lookup IS consulted (flag true) and its username
is returned instead of the tag value. -/
theorem claim_C4_cex_empty_tag_value :
    tagOrTrailOwner "RunInstances" [⟨"creator", ""⟩]
      (.ok [⟨"RunInstances", some "AssumedRole", "bob"⟩])
      = .ok (some "bob", true) := rfl

/-- C4 amended: in the EC2 and NAT-gateway handlers, a creator tag with a
non-empty value is returned immediately with no Activity Log call; when the
tag is absent or empty-valued and the lookup succeeds, the first event whose
name equals the audit event name and whose actor identity type is
AssumedRole yields its username, else null.  The lb handler keeps the same
truthiness gate and fallback but its tag scan differs: it selects the last
tag whose key OR value equals the string creator, returning that tag's
Value. -/
theorem claim_C4_amended_resolution :
    (∀ (a : String) (tags : List Tag) (lookup : Except PyError (List CTEvent)),
       truthy (findCreatorTag tags) = true →
       tagOrTrailOwner a tags lookup = .ok (findCreatorTag tags, false))
  ∧ (∀ (a : String) (tags : List Tag) (evs : List CTEvent),
       truthy (findCreatorTag tags) = false →
       tagOrTrailOwner a tags (.ok evs) = .ok (findQualifying a evs, true))
  ∧ (∀ (tags : List Tag) (lookup : Except PyError (List CTEvent)),
       truthy (lbFindCreator tags) = true →
       lbResolveOwner tags lookup = .ok (lbFindCreator tags, false))
  ∧ (∀ (tags : List Tag) (evs : List CTEvent),
       truthy (lbFindCreator tags) = false →
       lbResolveOwner tags (.ok evs)
         = .ok (findQualifying "CreateLoadBalancer" evs, true))
  ∧ lbFindCreator [⟨"team", "creator"⟩] = some "creator" := by
  refine ⟨fun a tags lookup h => ?_, fun a tags evs h => ?_,
          fun tags lookup h => ?_, fun tags evs h => ?_, rfl⟩
  · simp [tagOrTrailOwner, h]
  · simp [tagOrTrailOwner, h, get_creator_from_cloudtrail_ec2]
  · simp [lbResolveOwner, h]
  · simp [lbResolveOwner, h, get_creator_from_cloudtrail_ec2]

/-- C4 witness: a non-empty creator tag is returned with the fallback flag
false, even though the lookup would have produced a different name. -/
theorem claim_C4_amended_witness :
    tagOrTrailOwner "RunInstances" [⟨"creator", "alice"⟩]
      (.ok [⟨"RunInstances", some "AssumedRole", "bob"⟩])
      = .ok (some "alice", false) :=
  claim_C4_amended_resolution.1 "RunInstances" [⟨"creator", "alice"⟩]
    (.ok [⟨"RunInstances", some "AssumedRole", "bob"⟩]) (by decide)

/-- C5 counterexample: the claim says a resource younger than minAgeDays
carries the TooYoung record even when the exemption tag is present.  In
ec2.py the exemption check precedes the age check, and as written it raises
TypeError, so a 3-day-old instance tagged stale=false produces no record at
all — the step errors instead of yielding a too-young row. -/
theorem claim_C5_cex_young_exempt_instance :
    ec2InstanceStep "i-young" "r1" "EC2" 3
      ⟨[⟨"creator", "alice"⟩, ⟨"stale", "false"⟩]⟩ (.ok []) ⟨[], [], []⟩ 7
      = .error .typeError := rfl

/-- C5 amended: in the NAT-gateway handler every resource younger than the
7-day threshold is never evaluated (no metrics query) and carries the
too-young row (message Resource Age less than 7 days, status None),
regardless of its tags, whenever its ownership lookup succeeds.  In the EC2
handler the exemption check runs before the age check and, as written,
raises TypeError for every instance, so no young instance produces a
too-young record there. -/
theorem claim_C5_amended_tooyoung :
    (∀ (id region major : String) (age : Int) (tags : List Tag)
       (evs : List CTEvent) (m : NatMetrics), age < 7 →
       natInstanceStep id region major age tags (.ok evs) m
         = .ok ⟨⟨id, age, region,
                 (if truthy (findCreatorTag tags) then findCreatorTag tags
                  else findQualifying "CreateNatGateway" evs),
                 .msg "Resource Age less than 7 days", "None"⟩, none, false⟩)
  ∧ (∀ (id region major : String) (age : Int) (resp : TagsResp)
       (evs : List CTEvent) (m : Ec2Metrics) (tf : Int),
       ec2InstanceStep id region major age resp (.ok evs) m tf
         = .error .typeError) := by
  constructor
  · intro id region major age tags evs m hage
    have h7 : ¬ (age ≥ 7) := by omega
    by_cases h : truthy (findCreatorTag tags)
    · simp [natInstanceStep, tagOrTrailOwner, h, h7]
    · simp [natInstanceStep, tagOrTrailOwner, h, h7, get_creator_from_cloudtrail_ec2]
  · intro id region major age resp evs m tf
    by_cases h : truthy (findCreatorTag resp.Tags)
    · simp [ec2InstanceStep, tagOrTrailOwner, h, ec2StaleTagPresent, TagsResp.dictKeys]
    · simp [ec2InstanceStep, tagOrTrailOwner, h, get_creator_from_cloudtrail_ec2,
            ec2StaleTagPresent, TagsResp.dictKeys]

/-- C5 witness: a 3-day-old NAT gateway with no tags gets the too-young row
with owner null and no metrics query. -/
theorem claim_C5_amended_witness :
    natInstanceStep "nat-young" "r1" "NAT" 3 [] (.ok []) ⟨[]⟩
      = .ok ⟨⟨"nat-young", 3, "r1", none,
              .msg "Resource Age less than 7 days", "None"⟩, none, false⟩ :=
  claim_C5_amended_tooyoung.1 "nat-young" "r1" "NAT" 3 [] [] ⟨[]⟩ (by norm_num)

/-- C6: when the metrics query returns no samples at all for every metric,
the classification is stale (with a finding appended), both in the EC2
evaluation block (ec2.py lines 285-314) and, for a load balancer that has
listeners, in the lb evaluation block (lb.py lines 203-221). -/
theorem claim_C6_no_samples_stale :
    (∀ m : Ec2Metrics, m.networkIn = [] → m.networkOut = [] → m.cpu = [] →
       ec2MetricsEval m
         = ⟨.msg "No Values Returned", .msg "No Values Returned",
            .msg "No Values Returned", "stale", true⟩)
  ∧ (∀ (n rid ty major region : String) (ls : List String) (m : LbMetrics),
       ls ≠ [] → m.requestCount = [] →
       lbEval n rid ty major region ls m
         = ⟨.msg "No Values Returned", "stale",
            some ⟨n, rid, region, "idle", ty, major⟩, true⟩) := by
  constructor
  · intro m h1 h2 h3
    simp [ec2MetricsEval, h1, h2, h3]
  · intro n rid ty major region ls m h1 h2
    have hls : ls.isEmpty = false := by
      cases ls with
      | nil => exact absurd rfl h1
      | cons a as => rfl
    simp [lbEval, hls, h2]

/-- C6 witness: concrete all-empty sample lists. -/
theorem claim_C6_witness :
    ec2MetricsEval ⟨[], [], []⟩
      = ⟨.msg "No Values Returned", .msg "No Values Returned",
         .msg "No Values Returned", "stale", true⟩
  ∧ lbEval "lb-a" "app/lb-a/h" "application" "LB" "r1" ["tg"] ⟨[], []⟩
      = ⟨.msg "No Values Returned", "stale",
         some ⟨"lb-a", "app/lb-a/h", "r1", "idle", "application", "LB"⟩, true⟩ :=
  ⟨claim_C6_no_samples_stale.1 ⟨[], [], []⟩ rfl rfl rfl,
   claim_C6_no_samples_stale.2 "lb-a" "app/lb-a/h" "application" "LB" "r1"
     ["tg"] ⟨[], []⟩ (by decide) rfl⟩

/-- C7 counterexample: the claim says a first CPU sample of exactly 10
classifies the instance Active for EVERY value of the other metric samples.
With both network first samples 0 the network conjunct fires and the
evaluation is stale, not Active. -/
theorem claim_C7_cex_cpu_exactly_ten :
    (ec2MetricsEval ⟨[0], [0], [10]⟩).status = "stale"
      ∧ "stale" ≠ "Not stale" := by
  refine ⟨by norm_num [ec2MetricsEval], by decide⟩

/-- C7 amended: a first CPU sample of exactly 10 does not satisfy the CPU
disjunct (strict less-than), so the instance is classified Active (Not
stale, no finding) provided at least one network first sample is at or
above the 5*1024*1024 threshold. -/
theorem claim_C7_amended_cpu_boundary :
    ∀ m : Ec2Metrics, m.cpu.headD 0 = 10 →
      (5 * 1024 * 1024 ≤ m.networkIn.headD 0
        ∨ 5 * 1024 * 1024 ≤ m.networkOut.headD 0) →
      (ec2MetricsEval m).status = "Not stale"
        ∧ (ec2MetricsEval m).staleFinding = false := by
  intro m hcpu hnet
  have hc : m.cpu.isEmpty = false := by
    cases hm : m.cpu with
    | nil => rw [hm] at hcpu; norm_num at hcpu
    | cons a t => rfl
  have hcond : ¬ ((m.networkIn.headD 0 < 5 * 1024 * 1024
      ∧ m.networkOut.headD 0 < 5 * 1024 * 1024) ∨ m.cpu.headD 0 < 10) := by
    rw [hcpu]
    push_neg
    refine ⟨fun h1 => ?_, by norm_num⟩
    rcases hnet with h | h
    · exact absurd h1 (not_lt.mpr h)
    · exact h
  have hguard : (!m.networkIn.isEmpty || !m.networkOut.isEmpty || !m.cpu.isEmpty)
      = true := by simp [hc]
  simp only [ec2MetricsEval]
  rw [if_pos hguard, if_neg hcond]
  exact ⟨rfl, rfl⟩

/-- C7 witness: CPU exactly 10 with NetworkIn at 6000000 bytes is Active. -/
theorem claim_C7_witness :
    (ec2MetricsEval ⟨[6000000], [0], [10]⟩).status = "Not stale"
      ∧ (ec2MetricsEval ⟨[6000000], [0], [10]⟩).staleFinding = false :=
  claim_C7_amended_cpu_boundary ⟨[6000000], [0], [10]⟩ (by norm_num)
    (Or.inl (by norm_num))

/-- C10: whenever at least one metric returned a sample, the EC2 evaluation
block classifies the instance stale exactly when (first NetworkIn sample <
5*1024*1024 and first NetworkOut sample < 5*1024*1024) or first CPU sample <
10, an individually missing metric defaulting to 0; in particular a first
CPU sample below 10 forces stale whatever the network samples are. -/
theorem claim_C10_stale_iff :
    ∀ m : Ec2Metrics, ¬ (m.networkIn = [] ∧ m.networkOut = [] ∧ m.cpu = []) →
      ((ec2MetricsEval m).status = "stale" ↔
        ((m.networkIn.headD 0 < 5 * 1024 * 1024
            ∧ m.networkOut.headD 0 < 5 * 1024 * 1024)
          ∨ m.cpu.headD 0 < 10))
      ∧ ((ec2MetricsEval m).staleFinding = true ↔
        ((m.networkIn.headD 0 < 5 * 1024 * 1024
            ∧ m.networkOut.headD 0 < 5 * 1024 * 1024)
          ∨ m.cpu.headD 0 < 10))
      ∧ (m.cpu.headD 0 < 10 → (ec2MetricsEval m).status = "stale") := by
  intro m hne
  have hguard : (!m.networkIn.isEmpty || !m.networkOut.isEmpty || !m.cpu.isEmpty)
      = true := by
    cases hni : m.networkIn <;> cases hno : m.networkOut <;> cases hcp : m.cpu <;>
      simp_all
  have hmain : ((ec2MetricsEval m).status = "stale" ↔
        ((m.networkIn.headD 0 < 5 * 1024 * 1024
            ∧ m.networkOut.headD 0 < 5 * 1024 * 1024)
          ∨ m.cpu.headD 0 < 10))
      ∧ ((ec2MetricsEval m).staleFinding = true ↔
        ((m.networkIn.headD 0 < 5 * 1024 * 1024
            ∧ m.networkOut.headD 0 < 5 * 1024 * 1024)
          ∨ m.cpu.headD 0 < 10)) := by
    simp only [ec2MetricsEval]
    rw [if_pos hguard]
    split
    · next h => exact ⟨iff_of_true rfl h, iff_of_true rfl h⟩
    · next h => refine ⟨iff_of_false ?_ h, iff_of_false ?_ h⟩ <;> simp
  exact ⟨hmain.1, hmain.2, fun h10 => hmain.1.mpr (Or.inr h10)⟩

/-- C10 witness: CPU sample 5 forces stale despite both network samples
above the 5 MiB threshold. -/
theorem claim_C10_witness :
    (ec2MetricsEval ⟨[12000000], [6000000], [5]⟩).status = "stale" :=
  (claim_C10_stale_iff ⟨[12000000], [6000000], [5]⟩ (by norm_num)).2.2
    (by norm_num)

theorem hasSchedule_flatMap {α : Type} (f : α → List Effect)
    (hf : ∀ x, hasSchedule (f x) = false) (l : List α) :
    hasSchedule (l.flatMap f) = false := by
  induction l with
  | nil => rfl
  | cons x xs ih => rw [List.flatMap_cons, hasSchedule_append, hf x, ih]; rfl

theorem hasSchedule_putItems (c : String) (pf : FindingRec → Bool)
    (rs : List FindingRec) :
    hasSchedule (rs.map fun r =>
      Effect.putItem c r.rid r.rtype r.region (!pf r)) = false := by
  induction rs with
  | nil => rfl
  | cons r rest ih => simp [hasSchedule]

theorem hasSchedule_putItemsLb (c : String) (pf : LbFinding → Bool)
    (rs : List LbFinding) :
    hasSchedule (rs.map fun r =>
      Effect.putItem c ((r.rid.splitOn "/").getD 2 "") r.major r.region (!pf r))
      = false := by
  induction rs with
  | nil => rfl
  | cons r rest ih => simp [hasSchedule]

theorem lbOwnerBlock_no_schedule (pf : LbFinding → Bool)
    (x : Option String × List LbFinding) :
    hasSchedule (lbOwnerBlock pf x) = false := by
  obtain ⟨c, rs⟩ := x
  cases c with
  | none => rfl
  | some c =>
    simp only [lbOwnerBlock]
    split
    · rfl
    · rw [hasSchedule_append, hasSchedule_putItemsLb c pf rs]; rfl

theorem natOwnerBlock_no_schedule (pf : FindingRec → Bool)
    (x : Option String × List FindingRec) :
    hasSchedule (natOwnerBlock pf x) = false := by
  obtain ⟨c, rs⟩ := x
  cases c with
  | none => rfl
  | some c =>
    simp only [natOwnerBlock]
    split
    · rfl
    · rw [hasSchedule_append, hasSchedule_putItems c pf rs]; rfl

theorem putRecords_putItems (c : String) (pf pf' : FindingRec → Bool)
    (rs : List FindingRec) :
    putRecords (rs.map fun r => Effect.putItem c r.rid r.rtype r.region (!pf r))
      = putRecords (rs.map fun r =>
          Effect.putItem c r.rid r.rtype r.region (!pf' r)) := by
  induction rs with
  | nil => rfl
  | cons r rest ih => simp [putRecords] at ih ⊢; exact ih

theorem putRecords_ec2OwnerBlock (pf pf' : FindingRec → Bool)
    (x : Option String × List FindingRec) :
    putRecords (ec2OwnerBlock pf x) = putRecords (ec2OwnerBlock pf' x) := by
  obtain ⟨c, rs⟩ := x
  cases c with
  | none => rfl
  | some c =>
    simp only [ec2OwnerBlock]
    split
    · rfl
    · rw [putRecords_append, putRecords_append, putRecords_putItems c pf pf' rs]

theorem putRecords_natOwnerBlock (pf pf' : FindingRec → Bool)
    (x : Option String × List FindingRec) :
    putRecords (natOwnerBlock pf x) = putRecords (natOwnerBlock pf' x) := by
  obtain ⟨c, rs⟩ := x
  cases c with
  | none => rfl
  | some c =>
    simp only [natOwnerBlock]
    split
    · rfl
    · rw [putRecords_append, putRecords_append, putRecords_putItems c pf pf' rs]

theorem putRecords_flatMap_cong {α : Type} (f g : α → List Effect)
    (h : ∀ x, putRecords (f x) = putRecords (g x)) (l : List α) :
    putRecords (l.flatMap f) = putRecords (l.flatMap g) := by
  induction l with
  | nil => rfl
  | cons x xs ih =>
    rw [List.flatMap_cons, List.flatMap_cons, putRecords_append,
        putRecords_append, h x, ih]

/-- C3: the spec requires per-owner notification and persistence exactly for
owners with a non-null identity AND a non-empty finding list, and flags the
unguarded variant as the likely bug.  lb.py guards on a non-empty list, but
ec2.py (and nat_gw.py) does not: with email_candidates holding alice with
one finding and bob with none, the ec2 reporting phase still sends bob a
per-owner email (with an empty body), while only alice's finding is written;
the lb phase, at the analogous input, does not email bob. -/
theorem claim_C3_empty_list_owner_notified :
    Effect.sendEmail "bob" ∈ ec2ReportPhase ""
      [(some "alice", [⟨"i-1", "r1", "EC2"⟩]), (some "bob", [])]
      (fun _ => false) none "EC2"
  ∧ putRecords (ec2ReportPhase ""
      [(some "alice", [⟨"i-1", "r1", "EC2"⟩]), (some "bob", [])]
      (fun _ => false) none "EC2") = [("alice", "i-1", "EC2", "r1")]
  ∧ Effect.sendEmail "bob" ∉ lbReportPhase ""
      [(some "alice", [⟨"lb-a", "app/lb-a/h", "r1", "idle", "application", "LB"⟩]),
       (some "bob", [])] (fun _ => false) := by
  refine ⟨by decide, by decide, by decide⟩

/-- C8 counterexample: the claim says EVERY scan run invokes the Scheduler
after reporting.  The lb reporting phase contains no scheduling call for any
input — here a run with one stale finding — while the ec2 phase does. -/
theorem claim_C8_cex_lb_never_schedules :
    hasSchedule (lbReportPhase ""
      [(some "alice", [⟨"lb-a", "app/lb-a/h", "r1", "idle", "application", "LB"⟩])]
      (fun _ => false)) = false
  ∧ hasSchedule (ec2ReportPhase "" [] (fun _ => false) none "EC2") = true := by
  refine ⟨by decide, by decide⟩

/-- C8 amended: the EC2 scan run always invokes the Scheduler after summary
and per-owner reporting, passing the resource kind and the findings table
name; schedule_deletion_lambda catches every exception and returns a falsy
result, which yields the degraded final broadcast Unable to schedule
deletion lambda while the phase still completes and the attempted put_item
records are unaffected by the scheduling outcome.  The lb and NAT-gateway
runs never invoke the Scheduler. -/
theorem claim_C8_amended_scheduling :
    (∀ (e : PyError) (ts : String), schedule_deletion_lambda (.error e) ts = none)
  ∧ (∀ (summary : String) (cands : List (Option String × List FindingRec))
       (pf : FindingRec → Bool) (major : String),
       hasSchedule (ec2ReportPhase summary cands pf none major) = true)
  ∧ (∀ major : String,
       ec2FinalBroadcast none major = "Unable to schedule deletion lambda")
  ∧ (∀ (summary : String) (cands : List (Option String × List FindingRec))
       (pf : FindingRec → Bool) (major : String),
       Effect.snsPublish "Unable to schedule deletion lambda"
         ∈ ec2ReportPhase summary cands pf none major)
  ∧ (∀ (summary : String) (cands : List (Option String × List FindingRec))
       (pf : FindingRec → Bool) (sched sched' : Option String) (major : String),
       putRecords (ec2ReportPhase summary cands pf sched major)
         = putRecords (ec2ReportPhase summary cands pf sched' major))
  ∧ (∀ (summary : String) (cands : List (Option String × List LbFinding))
       (pf : LbFinding → Bool),
       hasSchedule (lbReportPhase summary cands pf) = false)
  ∧ (∀ (summary : String) (cands : List (Option String × List FindingRec))
       (pf : FindingRec → Bool),
       hasSchedule (natReportPhase summary cands pf) = false) := by
  refine ⟨fun e ts => rfl, fun summary cands pf major => ?_, fun major => rfl,
          fun summary cands pf major => ?_,
          fun summary cands pf sched sched' major => ?_,
          fun summary cands pf => ?_, fun summary cands pf => ?_⟩
  · simp [ec2ReportPhase, hasSchedule, List.any_append]
  · simp [ec2ReportPhase, ec2FinalBroadcast]
  · unfold ec2ReportPhase
    rw [putRecords_append, putRecords_append, putRecords_append, putRecords_append]
    rfl
  · unfold lbReportPhase
    rw [hasSchedule_append,
        hasSchedule_flatMap _ (lbOwnerBlock_no_schedule pf) cands]
    rfl
  · unfold natReportPhase
    rw [hasSchedule_append,
        hasSchedule_flatMap _ (natOwnerBlock_no_schedule pf) cands]
    rfl

/-- C9: a DynamoDB put_item failure for one finding is caught at the call
site (the try/except ClientError inside the owner loops of ec2.py lines
349-363 and nat_gw.py lines 237-253), so the set of records whose storage is
attempted does not depend on which puts fail; concretely, with alice's first
put failing, alice's second finding and bob's finding are still stored and
the phase runs to completion. -/
theorem claim_C9_put_failure_isolated :
    (∀ (summary : String) (cands : List (Option String × List FindingRec))
       (pf pf' : FindingRec → Bool) (sched : Option String) (major : String),
       putRecords (ec2ReportPhase summary cands pf sched major)
         = putRecords (ec2ReportPhase summary cands pf' sched major))
  ∧ (∀ (summary : String) (cands : List (Option String × List FindingRec))
       (pf pf' : FindingRec → Bool),
       putRecords (natReportPhase summary cands pf)
         = putRecords (natReportPhase summary cands pf'))
  ∧ putRecords (ec2ReportPhase ""
      [(some "alice", [⟨"i-a1", "r1", "EC2"⟩, ⟨"i-a2", "r1", "EC2"⟩]),
       (some "bob", [⟨"i-b1", "r2", "EC2"⟩])]
      (fun r => r.rid == "i-a1") none "EC2")
      = [("alice", "i-a1", "EC2", "r1"), ("alice", "i-a2", "EC2", "r1"),
         ("bob", "i-b1", "EC2", "r2")]
  ∧ Effect.putItem "alice" "i-a1" "EC2" "r1" false ∈ ec2ReportPhase ""
      [(some "alice", [⟨"i-a1", "r1", "EC2"⟩, ⟨"i-a2", "r1", "EC2"⟩]),
       (some "bob", [⟨"i-b1", "r2", "EC2"⟩])]
      (fun r => r.rid == "i-a1") none "EC2"
  ∧ Effect.putItem "alice" "i-a2" "EC2" "r1" true ∈ ec2ReportPhase ""
      [(some "alice", [⟨"i-a1", "r1", "EC2"⟩, ⟨"i-a2", "r1", "EC2"⟩]),
       (some "bob", [⟨"i-b1", "r2", "EC2"⟩])]
      (fun r => r.rid == "i-a1") none "EC2" := by
  refine ⟨fun summary cands pf pf' sched major => ?_,
          fun summary cands pf pf' => ?_, by decide, by decide, by decide⟩
  · unfold ec2ReportPhase
    rw [putRecords_append, putRecords_append, putRecords_append, putRecords_append,
        putRecords_flatMap_cong _ _ (putRecords_ec2OwnerBlock pf pf') cands]
  · unfold natReportPhase
    rw [putRecords_append, putRecords_append,
        putRecords_flatMap_cong _ _ (putRecords_natOwnerBlock pf pf') cands]
